import Mathlib

/-!
Verification development for the GLB optimization core
(`src/utils/glbOptimizer.ts` of glb-optimized-pro).

The TypeScript core is shallowly embedded below:
* byte buffers are `List Nat` (each entry one byte);
* JavaScript `number` arithmetic on sizes and triangle accumulators is
  modelled as exact rational arithmetic (`Rat`), with `Math.floor` as
  `mathFloorNat` (provably `Nat.floor`) and `Math.round` as `mathRound`
  (provably `round`; both round half toward +inf);
* effectful library calls (glTF-Transform decode/encode/transform,
  browser image codecs) are abstracted into an oracle record whose
  fields return `Except String` values: the pipeline's control flow —
  which is what the claims are about — is embedded exactly;
* a thrown exception is an `Except.error`, `try`/`catch` is a `match`
  on the `Except` value.
-/

namespace GLBOptimizer

/-- `textureQuality` field of `OptimizationSettings` (src/types, part_004). -/
inductive TexQuality
  | high
  | medium
  | low
deriving DecidableEq, Repr

/-- `dracoCompression` field of `OptimizationSettings`. -/
structure DracoSettings where
  enabled : Bool
  level : Nat
deriving DecidableEq, Repr

/-- `OptimizationSettings` from src/types (part_004). -/
structure OptimizationSettings where
  meshDecimation : Nat
  textureQuality : TexQuality
  dracoCompression : DracoSettings
  wireframeMode : Bool
deriving DecidableEq, Repr

/-- A glTF accessor: the only property the core reads is `getCount()`. -/
structure Accessor where
  count : Nat
deriving DecidableEq, Repr

/-- A mesh primitive: the core reads `getAttribute('POSITION')` and
`getIndices()`, each of which may be absent. -/
structure Primitive where
  position : Option Accessor
  indices : Option Accessor
deriving DecidableEq, Repr

/-- A mesh: `listPrimitives()`. -/
structure Mesh where
  primitives : List Primitive
deriving DecidableEq, Repr

/-- A texture: raw encoded image bytes (`getImage()`, possibly null) and a
MIME type (`getMimeType()`).  The `id` stands for JavaScript object identity
(distinct Texture objects carry distinct ids). -/
structure Texture where
  id : Nat
  image : Option (List Nat)
  mimeType : String
deriving DecidableEq, Repr

/-- A material: the five texture slots the core reads, each holding the id of
the referenced texture or nothing. -/
structure Material where
  baseColorTexture : Option Nat
  normalTexture : Option Nat
  metallicRoughnessTexture : Option Nat
  occlusionTexture : Option Nat
  emissiveTexture : Option Nat
deriving DecidableEq, Repr

/-- The in-memory glTF document graph, restricted to the parts the optimizer
core reads or writes.  Scenes and animations are only ever counted
(`listScenes().length`, `listAnimations().length`), so they are carried as
counts. -/
structure GltfDocument where
  scenes : Nat
  meshes : List Mesh
  materials : List Material
  textures : List Texture
  animations : Nat
deriving DecidableEq, Repr

/-- JavaScript `Math.floor` on a non-negative number, producing a `Nat`.
Defined through `Rat.floor` so that concrete runs evaluate by `rfl` and
`decide`; `mathFloorNat_eq_natFloor` identifies it with `Nat.floor`. -/
def mathFloorNat (q : Rat) : Nat :=
  q.floor.toNat

/-- JavaScript `Math.round`: floor of the argument plus one half (rounds
half toward positive infinity, as `Math.round` does). -/
def mathRound (q : Rat) : Int :=
  (q + 1 / 2).floor

theorem ratFloor_eq_intFloor (q : Rat) : q.floor = ⌊q⌋ := by
  rw [Rat.floor_def, Rat.floor_def']

theorem mathFloorNat_eq_natFloor (q : Rat) : mathFloorNat q = ⌊q⌋₊ := by
  rw [mathFloorNat, ratFloor_eq_intFloor, Int.floor_toNat]

theorem mathRound_eq_round (q : Rat) : mathRound q = round q := by
  rw [mathRound, ratFloor_eq_intFloor, round_eq]

/-- `DataView.getUint32(offset, true)`: little-endian 32-bit read; throws a
`RangeError` (here `Except.error`) when the buffer is too short. -/
def getUint32LE (bytes : List Nat) (offset : Nat) : Except String Nat :=
  if offset + 4 ≤ bytes.length then
    .ok (bytes.getD offset 0
      + 256 * bytes.getD (offset + 1) 0
      + 65536 * bytes.getD (offset + 2) 0
      + 16777216 * bytes.getD (offset + 3) 0)
  else
    .error "RangeError: Offset is outside the bounds of the DataView"

/-- `GLBOptimizer.isValidGLB` (glbOptimizer.ts lines 108-117): reads the
32-bit little-endian magic at offset 0 and compares it with 0x46546C67
("glTF"); the surrounding `try`/`catch` turns a short-buffer `RangeError`
into `false`.  Total, hence it never throws. -/
def isValidGLB (bytes : List Nat) : Bool :=
  match getUint32LE bytes 0 with
  | .ok magic => magic == 0x46546C67
  | .error _ => false

/-- The record returned by `getModelStats`. -/
structure ModelStats where
  scenes : Nat
  meshes : Nat
  materials : Nat
  textures : Nat
  animations : Nat
  vertices : Nat
  triangles : Nat
deriving DecidableEq, Repr

/-- One primitive's contribution to the `(totalVertices, totalTriangles)`
accumulator pair of `getModelStats` (lines 210-223): a primitive without a
POSITION attribute contributes nothing at all; otherwise it contributes its
vertex count and the exact rational `indexCount/3` (indexed) or
`vertexCount/3` (unindexed). -/
def primStatsContribution (p : Primitive) : Nat × Rat :=
  match p.position with
  | none => (0, 0)
  | some pos =>
    match p.indices with
    | some idx => (pos.count, (idx.count : Rat) / 3)
    | none => (pos.count, (pos.count : Rat) / 3)

/-- The `forEach` accumulation over one mesh's primitives. -/
def meshStatsAccum (acc : Nat × Rat) (m : Mesh) : Nat × Rat :=
  m.primitives.foldl
    (fun a p => (a.1 + (primStatsContribution p).1, a.2 + (primStatsContribution p).2))
    acc

/-- `GLBOptimizer.getModelStats` (lines 198-235).  `totalTriangles` is a
JavaScript number accumulated as fractional thirds across all primitives and
floored once at the end (`Math.floor(totalTriangles)`, line 233). -/
def getModelStats (d : GltfDocument) : ModelStats :=
  let acc := d.meshes.foldl meshStatsAccum (0, 0)
  { scenes := d.scenes
    meshes := d.meshes.length
    materials := d.materials.length
    textures := d.textures.length
    animations := d.animations
    vertices := acc.1
    triangles := mathFloorNat acc.2 }

/-- The graph-rewrite transforms that `conservativeMeshOptimization` pushes
onto its `transforms` array, with their configuration values. -/
inductive MeshTransform
  | weld (tolerance : Rat)
  | simplifyMeshopt (ratio : Rat) (error : Rat) (lockBorder : Bool)
  | resample (tolerance : Rat)
deriving DecidableEq, Repr

/-- The transform list built by `GLBOptimizer.conservativeMeshOptimization`
(lines 119-141): weld (tolerance 1e-5) and simplify (ratio
`max(0.3, 1 - meshDecimation/100 * 0.7)`, error 1e-3, lockBorder) exactly
when `0 < meshDecimation < 80`; resample (tolerance 1e-3) always. -/
def conservativeMeshTransforms (s : OptimizationSettings) : List MeshTransform :=
  (if 0 < s.meshDecimation ∧ s.meshDecimation < 80 then
    [MeshTransform.weld (1 / 100000),
     MeshTransform.simplifyMeshopt
       (max (3 / 10) (1 - (s.meshDecimation : Rat) / 100 * (7 / 10)))
       (1 / 1000) true]
  else [])
  ++ [MeshTransform.resample (1 / 1000)]

/-- The ids of the textures a material references through its five texture
slots (`safeTextureOptimization`, lines 157-167). -/
def materialUsedTextureIds (m : Material) : List Nat :=
  [m.baseColorTexture, m.normalTexture, m.metallicRoughnessTexture,
   m.occlusionTexture, m.emissiveTexture].filterMap id

/-- The `usedTextures` set of `safeTextureOptimization` (lines 155-168),
as the list of ids referenced by any material. -/
def usedTextureIds (materials : List Material) : List Nat :=
  materials.flatMap materialUsedTextureIds

/-- `GLBOptimizer.safeTextureOptimization` (lines 147-176): computes the set
of textures referenced by any of the five material slots and disposes every
texture not in that set.  No texture bytes are touched. -/
def safeTextureOptimization (d : GltfDocument) : GltfDocument :=
  let used := usedTextureIds d.materials
  { d with textures := d.textures.filter (fun t => used.contains t.id) }

/-- Stage 3 of `optimizeGLB` (lines 55-57): the embedded-safe texture
strategy runs only when `settings.textureQuality !== 'high'`. -/
def textureStage (s : OptimizationSettings) (d : GltfDocument) : GltfDocument :=
  if s.textureQuality ≠ TexQuality.high then safeTextureOptimization d else d

/-- The quantization bit-depths passed to `draco(...)`. -/
structure DracoParams where
  quantizePosition : Nat
  quantizeNormal : Nat
  quantizeTexcoord : Nat
  quantizeColor : Nat
  quantizeGeneric : Nat
deriving DecidableEq, Repr

/-- The parameters `safeDracoCompression` derives from the requested level
(lines 181-190): the level is capped at 7 (`Math.min(level, 7)`), positions
and texcoords quantize at `max(10, 16 - level)` bits, normals, colors and
generic attributes at `max(8, 16 - level)` bits. -/
def dracoParamsFor (requested : Nat) : DracoParams :=
  let level := min requested 7
  { quantizePosition := max 10 (16 - level)
    quantizeNormal := max 8 (16 - level)
    quantizeTexcoord := max 10 (16 - level)
    quantizeColor := max 8 (16 - level)
    quantizeGeneric := max 8 (16 - level) }

/-- Result of `createImageBitmap`: the only properties read are the pixel
dimensions. -/
structure ImageBitmap where
  width : Nat
  height : Nat
deriving DecidableEq, Repr

/-- A `<canvas>` element (only ever created, sized and drawn into). -/
inductive Canvas
  | mk
deriving DecidableEq, Repr

/-- Oracle for every effectful library call the pipeline makes.  Each field
returns `Except String` (or `Option` where the browser API reports failure
with `null`): a concrete oracle fixes the outcome of each call, and theorems
quantify over all oracles. -/
structure PipelineOracle where
  /-- `io.readBinary(bytes)`: container decode. -/
  readBinary : List Nat → Except String GltfDocument
  /-- `JSON.parse(gltfText)`: the opaque parsed JSON value is irrelevant,
  only success or failure matters. -/
  parseJson : String → Except String Unit
  /-- `io.readJSON({json, resources})`: decode of a textual scene plus its
  named external resources. -/
  readJSON : List (String × List Nat) → Except String GltfDocument
  /-- `document.transform(...)` applying the conservative mesh transforms. -/
  transformMesh : GltfDocument → List MeshTransform → Except String GltfDocument
  /-- `document.transform(draco({...}))`. -/
  transformDraco : GltfDocument → DracoParams → Except String GltfDocument
  /-- `document.transform(dedup(), prune())`: the final cleanup rewrite. -/
  transformDedupPrune : GltfDocument → Except String GltfDocument
  /-- `io.writeBinary(document)`: container encode. -/
  writeBinary : GltfDocument → Except String (List Nat)
  /-- `canvas.getContext('2d')`: whether a 2d context is available. -/
  getContext2d : Bool
  /-- `createImageBitmap(blob)` on image bytes plus their MIME type. -/
  createImageBitmap : List Nat → String → Except String ImageBitmap
  /-- `canvas.toBlob(cb, 'image/jpeg', quality)` on a canvas of the given
  width and height: the JPEG-encoded bytes, or `none` when the browser
  hands the callback `null`. -/
  toBlobJpeg : Nat → Nat → Rat → Option (List Nat)

/-- `GLBOptimizer.conservativeMeshOptimization` (lines 119-145): builds the
transform list and applies it when non-empty (it always is, since resample
is always pushed). -/
def conservativeMeshOptimization (o : PipelineOracle) (d : GltfDocument)
    (s : OptimizationSettings) : Except String GltfDocument :=
  let transforms := conservativeMeshTransforms s
  if transforms.length > 0 then o.transformMesh d transforms else .ok d

/-- `GLBOptimizer.safeDracoCompression` (lines 178-196): applies the Draco
transform with the capped parameters; its internal `try`/`catch` swallows
any failure and leaves the document uncompressed, so this step is total. -/
def safeDracoCompression (o : PipelineOracle) (d : GltfDocument)
    (s : OptimizationSettings) : GltfDocument :=
  match o.transformDraco d (dracoParamsFor s.dracoCompression.level) with
  | .ok d2 => d2
  | .error _ => d

/-- The `qualityMap` of `optimizeExternalTextures` (line 395). -/
def jpegQualityFor : TexQuality → Rat
  | .high => 95 / 100
  | .medium => 8 / 10
  | .low => 6 / 10

/-- The `maxSize` ternary of `optimizeExternalTextures` (lines 411-412). -/
def maxTextureSizeFor : TexQuality → Nat
  | .high => 2048
  | .medium => 1024
  | .low => 512

/-- `document.createElement('canvas')` as written on line 403 of
`optimizeExternalTextures`.  There, `document` is the function's
glTF-Transform `Document` parameter, which shadows the browser DOM global
of the same name — and the glTF-Transform `Document` class has no
`createElement` method, so at run time this call throws a `TypeError`.
Modelled faithfully as always raising. -/
def documentCreateElementCanvas (_d : GltfDocument) : Except String Canvas :=
  .error "TypeError: document.createElement is not a function"

/-- The per-texture body of `optimizeExternalTextures` (lines 398-438):
skip a texture with no image; otherwise run the `try` block (create a
canvas, get a 2d context, decode, resize so neither dimension exceeds the
quality tier's ceiling without upscaling, re-encode as JPEG at the tier's
quality, replace bytes and MIME type), and on any thrown error leave the
texture unmodified (per-texture isolation, lines 435-437). -/
def optimizeExternalTexture (o : PipelineOracle) (d : GltfDocument)
    (s : OptimizationSettings) (t : Texture) : Texture :=
  match t.image with
  | none => t
  | some img =>
    let attempt : Except String Texture := do
      let _canvas ← documentCreateElementCanvas d
      if !o.getContext2d then
        pure t
      else do
        let bmp ← o.createImageBitmap img t.mimeType
        let maxSize := maxTextureSizeFor s.textureQuality
        let scale : Rat :=
          min (min ((maxSize : Rat) / bmp.width) ((maxSize : Rat) / bmp.height)) 1
        let w := mathFloorNat ((bmp.width : Rat) * scale)
        let h := mathFloorNat ((bmp.height : Rat) * scale)
        match o.toBlobJpeg w h (jpegQualityFor s.textureQuality) with
        | some buf => pure { t with image := some buf, mimeType := "image/jpeg" }
        | none => pure t
    match attempt with
    | .ok t2 => t2
    | .error _ => t

/-- `GLBOptimizer.optimizeExternalTextures` (lines 393-439): the external-
aggressive strategy, iterated over every texture of the document. -/
def optimizeExternalTextures (o : PipelineOracle) (d : GltfDocument)
    (s : OptimizationSettings) : GltfDocument :=
  { d with textures := d.textures.map (optimizeExternalTexture o d s) }

/-- The `modelInfo` part of a result: the single-file happy path carries
`{original, optimized}` stats, the multi-file path a single stats record,
and the fallback the `'N/A'` placeholders. -/
inductive ModelInfo
  | pair (original optimized : ModelStats)
  | single (stats : ModelStats)
  | unavailable
deriving DecidableEq, Repr

/-- The `{optimizedBlob, stats, modelInfo}` bundle returned by the entry
points.  A `Blob`'s content and size are determined by its bytes, so the
blob is carried as its byte list. -/
structure OptimizationResult where
  optimizedBytes : List Nat
  originalSize : Nat
  optimizedSize : Nat
  reduction : Int
  modelInfo : ModelInfo
deriving DecidableEq, Repr

/-- One `onProgress(percent, stage)` invocation. -/
abbrev ProgressEvent := Nat × String

/-- `GLBOptimizer.safeFallbackOptimization` (lines 237-285): emits its own
progress checkpoints 25/50/75/100, re-reads the original bytes and returns
them verbatim as the optimized blob, with a synthetic `optimizedSize`
obtained by flooring `file.size * reductionFactor` where the factor picks
up 0.9 for `meshDecimation > 50` and 0.95 for low texture quality, and
`'N/A'` model statistics. -/
def safeFallbackOptimization (fileBytes : List Nat) (s : OptimizationSettings) :
    List ProgressEvent × OptimizationResult :=
  let events : List ProgressEvent :=
    [(25, "analyzing"), (50, "optimizing"), (75, "compressing"), (100, "finalizing")]
  let reductionFactor : Rat :=
    (if s.meshDecimation > 50 then (9 : Rat) / 10 else 1)
    * (if s.textureQuality = TexQuality.low then (95 : Rat) / 100 else 1)
  (events,
    { optimizedBytes := fileBytes
      originalSize := fileBytes.length
      optimizedSize := mathFloorNat ((fileBytes.length : Rat) * reductionFactor)
      reduction := mathRound ((1 - reductionFactor) * 100)
      modelInfo := ModelInfo.unavailable })

/-- The `try` block of `GLBOptimizer.optimizeGLB` (lines 30-99), returning
the progress events emitted so far together with either the result bundle
or the thrown error.  Stage structure and checkpoints follow the source:
10/20 analyzing, 30/50 optimizing, 60/75 (and 80 when Draco is enabled)
compressing, 90/95 finalizing, 100 completed. -/
def optimizeGLBTry (o : PipelineOracle) (fileBytes : List Nat)
    (s : OptimizationSettings) : List ProgressEvent × Except String OptimizationResult :=
  let tr1 : List ProgressEvent := [(10, "analyzing")]
  if !isValidGLB fileBytes then
    (tr1, .error "Invalid GLB file format")
  else
    match o.readBinary fileBytes with
    | .error e => (tr1, .error e)
    | .ok doc =>
      let originalStats := getModelStats doc
      let tr2 := tr1 ++ [(20, "analyzing"), (30, "optimizing")]
      match conservativeMeshOptimization o doc s with
      | .error e => (tr2, .error e)
      | .ok doc2 =>
        let tr3 := tr2 ++ [(50, "optimizing"), (60, "compressing")]
        let doc3 := textureStage s doc2
        let tr4 := tr3 ++ [(75, "compressing")]
        let step4 :=
          if s.dracoCompression.enabled then
            (tr4 ++ [(80, "compressing")], safeDracoCompression o doc3 s)
          else (tr4, doc3)
        let tr5 := step4.1 ++ [(90, "finalizing")]
        match o.transformDedupPrune step4.2 with
        | .error e => (tr5, .error e)
        | .ok doc5 =>
          let tr6 := tr5 ++ [(95, "finalizing")]
          match o.writeBinary doc5 with
          | .error e => (tr6, .error e)
          | .ok outBytes =>
            if !isValidGLB outBytes then
              (tr6, .error "Optimization resulted in invalid GLB file")
            else
              let optimizedStats := getModelStats doc5
              (tr6 ++ [(100, "completed")],
                .ok { optimizedBytes := outBytes
                      originalSize := fileBytes.length
                      optimizedSize := outBytes.length
                      reduction :=
                        mathRound ((((fileBytes.length : Rat) - outBytes.length)
                          / fileBytes.length) * 100)
                      modelInfo := ModelInfo.pair originalStats optimizedStats })

/-- `GLBOptimizer.optimizeGLB` (lines 24-106): run the pipeline; on any
thrown error the `catch` (lines 101-105) diverts to
`safeFallbackOptimization`, whose progress events follow those already
emitted.  Total in the model: no exception reaches the caller. -/
def optimizeGLB (o : PipelineOracle) (fileBytes : List Nat)
    (s : OptimizationSettings) : List ProgressEvent × OptimizationResult :=
  match optimizeGLBTry o fileBytes s with
  | (tr, .ok r) => (tr, r)
  | (tr, .error _) =>
    let fb := safeFallbackOptimization fileBytes s
    (tr ++ fb.1, fb.2)

/-- Whether a progress trace carries monotonically non-decreasing
percentages. -/
def progressMonotone : List ProgressEvent → Bool
  | [] => true
  | [_] => true
  | (a, _) :: (b, st) :: rest => a ≤ b && progressMonotone ((b, st) :: rest)

/-- The `try` block of `GLBOptimizer.optimizeGLTFWithTextures`
(lines 334-385): parse the textual scene, decode it with the named texture
resources, run the mesh pass, the external-aggressive texture pass, the
optional Draco pass, cleanup, and encode to binary.  `originalSize` sums the
scene text size and all texture file sizes. -/
def optimizeGLTFWithTexturesTry (o : PipelineOracle) (gltfText : String)
    (textureFiles : List (String × List Nat)) (s : OptimizationSettings) :
    List ProgressEvent × Except String OptimizationResult :=
  let tr1 : List ProgressEvent := [(10, "analyzing")]
  match o.parseJson gltfText with
  | .error e => (tr1, .error e)
  | .ok _ =>
    match o.readJSON textureFiles with
    | .error e => (tr1, .error e)
    | .ok doc =>
      let tr2 := tr1 ++ [(30, "optimizing")]
      match conservativeMeshOptimization o doc s with
      | .error e => (tr2, .error e)
      | .ok doc2 =>
        let tr3 := tr2 ++ [(60, "compressing")]
        let doc3 := optimizeExternalTextures o doc2 s
        let doc4 :=
          if s.dracoCompression.enabled then safeDracoCompression o doc3 s else doc3
        let tr4 := tr3 ++ [(90, "finalizing")]
        match o.transformDedupPrune doc4 with
        | .error e => (tr4, .error e)
        | .ok doc5 =>
          match o.writeBinary doc5 with
          | .error e => (tr4, .error e)
          | .ok outBytes =>
            let originalSize := gltfText.length + (textureFiles.map (·.2.length)).sum
            (tr4 ++ [(100, "completed")],
              .ok { optimizedBytes := outBytes
                    originalSize := originalSize
                    optimizedSize := outBytes.length
                    reduction :=
                      mathRound ((((originalSize : Rat) - outBytes.length)
                        / originalSize) * 100)
                    modelInfo := ModelInfo.single (getModelStats doc5) })

/-- `GLBOptimizer.optimizeGLTFWithTextures` (lines 327-391): its `catch`
(lines 387-390) logs and rethrows — every pipeline exception propagates to
the caller unchanged, and no fallback result is substituted. -/
def optimizeGLTFWithTextures (o : PipelineOracle) (gltfText : String)
    (textureFiles : List (String × List Nat)) (s : OptimizationSettings) :
    List ProgressEvent × Except String OptimizationResult :=
  match optimizeGLTFWithTexturesTry o gltfText textureFiles s with
  | (tr, .ok r) => (tr, .ok r)
  | (tr, .error e) => (tr, .error e)

/-- C2's reading of the triangle total, written from the spec's words
("fractional results are truncated, not rounded", per primitive): each
primitive contributes `floor(indexCount/3)` or `floor(vertexCount/3)` and
the document total is the straight sum of those truncated values.  Stated
for comparison with `getModelStats`, which floors once, after summing
exact thirds. -/
def perPrimitiveTruncatedTriangleTotal (d : GltfDocument) : Nat :=
  ((d.meshes.flatMap (·.primitives)).map
    (fun p =>
      match p.position with
      | none => 0
      | some pos =>
        match p.indices with
        | some idx => idx.count / 3
        | none => pos.count / 3)).sum

/-! ## Concrete objects for witnesses and counterexamples -/

/-- A document with no content at all. -/
def emptyDoc : GltfDocument := ⟨0, [], [], [], 0⟩

/-- One mesh with two indexed primitives of index counts 4 and 5 (both with
POSITION present): the exact triangle thirds are 4/3 and 5/3. -/
def docC2 : GltfDocument :=
  { scenes := 1
    meshes := [⟨[⟨some ⟨4⟩, some ⟨4⟩⟩, ⟨some ⟨5⟩, some ⟨5⟩⟩]⟩]
    materials := []
    textures := []
    animations := 0 }

/-- An oracle whose decode succeeds (empty document) and whose mesh
transform throws; everything else succeeds. -/
def failMeshOracle : PipelineOracle :=
  { readBinary := fun _ => .ok emptyDoc
    parseJson := fun _ => .ok ()
    readJSON := fun _ => .ok emptyDoc
    transformMesh := fun _ _ => .error "mesh boom"
    transformDraco := fun d _ => .ok d
    transformDedupPrune := fun d => .ok d
    writeBinary := fun _ => .ok [0x67, 0x6C, 0x54, 0x46]
    getContext2d := true
    createImageBitmap := fun _ _ => .error "decode fail"
    toBlobJpeg := fun _ _ _ => none }

/-- `failMeshOracle` with the mesh transform succeeding too. -/
def okOracle : PipelineOracle :=
  { failMeshOracle with transformMesh := fun d _ => .ok d }

/-- Seven bytes beginning with the GLB magic `glTF`. -/
def glbHeader : List Nat := [0x67, 0x6C, 0x54, 0x46, 1, 2, 3]

/-- Settings with meshDecimation 40, medium texture quality, Draco enabled at
requested level 9. -/
def exSettings40 : OptimizationSettings := ⟨40, TexQuality.medium, ⟨true, 9⟩, false⟩

/-! ## C9 — format validator -/

/-- C9: the format validator is a total Boolean function (the model's type
already rules out any thrown exception) and accepts exactly the buffers of at
least four bytes whose first four bytes, read as a 32-bit little-endian
integer, are the magic 0x46546C67 — that is, whose first four bytes are
0x67, 0x6C, 0x54, 0x46; every shorter or mismatched buffer yields `false`. -/
theorem isValidGLB_iff_magic (bytes : List Nat) (hb : ∀ b ∈ bytes, b < 256) :
    isValidGLB bytes = true ↔ bytes.take 4 = [0x67, 0x6C, 0x54, 0x46] := by
  match bytes with
  | [] => simp [isValidGLB, getUint32LE]
  | [a] => simp [isValidGLB, getUint32LE]
  | [a, b] => simp [isValidGLB, getUint32LE]
  | [a, b, c] => simp [isValidGLB, getUint32LE]
  | a :: b :: c :: d :: rest =>
    have ha := hb a (by simp)
    have hb2 := hb b (by simp)
    have hc := hb c (by simp)
    have hd := hb d (by simp)
    simp only [isValidGLB, getUint32LE, List.length_cons, List.take_succ_cons, List.take_zero,
      List.getD_cons_zero, List.getD_cons_succ]
    rw [if_pos (by omega)]
    simp only [beq_iff_eq, List.cons.injEq, and_true]
    constructor
    · intro h
      exact ⟨by omega, by omega, by omega, by omega⟩
    · rintro ⟨h1, h2, h3, h4⟩
      omega

/-- Witness for C9 at a concrete buffer carrying the magic. -/
theorem isValidGLB_iff_magic_witness :
    isValidGLB [0x67, 0x6C, 0x54, 0x46, 1, 2, 3] = true ↔
      [0x67, 0x6C, 0x54, 0x46, 1, 2, 3].take 4 = [0x67, 0x6C, 0x54, 0x46] :=
  isValidGLB_iff_magic [0x67, 0x6C, 0x54, 0x46, 1, 2, 3] (by decide)

/-! ## C7 — Draco level clamp -/

/-- `settings` with only the requested Draco level replaced. -/
def setDracoLevel (s : OptimizationSettings) (l : Nat) : OptimizationSettings :=
  { s with dracoCompression := { s.dracoCompression with level := l } }

/-- C7: requesting Draco level 9 or 10 drives the compression pass exactly as
level 7 does (the whole pass is extensionally equal, for every oracle and
document), and the per-attribute quantization bit-depths follow
`max(10, 16 - effectiveLevel)` for positions and texcoords and
`max(8, 16 - effectiveLevel)` for normals, colors and generic attributes,
with `effectiveLevel = min(requested, 7)`. -/
theorem safeDracoCompression_level_clamp (o : PipelineOracle) (d : GltfDocument)
    (s : OptimizationSettings) (requested : Nat) :
    safeDracoCompression o d (setDracoLevel s 9) = safeDracoCompression o d (setDracoLevel s 7) ∧
    safeDracoCompression o d (setDracoLevel s 10) = safeDracoCompression o d (setDracoLevel s 7) ∧
    dracoParamsFor 9 = dracoParamsFor 7 ∧
    dracoParamsFor 10 = dracoParamsFor 7 ∧
    (dracoParamsFor requested).quantizePosition = max 10 (16 - min requested 7) ∧
    (dracoParamsFor requested).quantizeTexcoord = max 10 (16 - min requested 7) ∧
    (dracoParamsFor requested).quantizeNormal = max 8 (16 - min requested 7) ∧
    (dracoParamsFor requested).quantizeColor = max 8 (16 - min requested 7) ∧
    (dracoParamsFor requested).quantizeGeneric = max 8 (16 - min requested 7) := by
  refine ⟨?_, ?_, by decide, by decide, rfl, rfl, rfl, rfl, rfl⟩ <;>
    simp [safeDracoCompression, setDracoLevel, show dracoParamsFor 9 = dracoParamsFor 7 from by decide,
      show dracoParamsFor 10 = dracoParamsFor 7 from by decide]

/-! ## C5 — geometry pass gating and ratio -/

/-- C5: welding and simplification are pushed exactly when
`0 < meshDecimation < 80`; any simplify transform carries the ratio
`max(0.3, 1 - meshDecimation/100 * 0.7)` (with error 0.001 and locked
borders); animation resampling is pushed for every `meshDecimation`. -/
theorem conservativeMeshTransforms_gating (o : PipelineOracle) (d : GltfDocument)
    (s : OptimizationSettings) :
    ((∃ tol, MeshTransform.weld tol ∈ conservativeMeshTransforms s) ↔
      0 < s.meshDecimation ∧ s.meshDecimation < 80) ∧
    ((∃ r e l, MeshTransform.simplifyMeshopt r e l ∈ conservativeMeshTransforms s) ↔
      0 < s.meshDecimation ∧ s.meshDecimation < 80) ∧
    (∀ r e l, MeshTransform.simplifyMeshopt r e l ∈ conservativeMeshTransforms s →
      r = max (3 / 10) (1 - (s.meshDecimation : Rat) / 100 * (7 / 10)) ∧
        e = 1 / 1000 ∧ l = true) ∧
    MeshTransform.resample (1 / 1000) ∈ conservativeMeshTransforms s ∧
    conservativeMeshOptimization o d s = o.transformMesh d (conservativeMeshTransforms s) := by
  have hlen : (conservativeMeshTransforms s).length > 0 := by
    unfold conservativeMeshTransforms
    simp
  have happ : conservativeMeshOptimization o d s
      = o.transformMesh d (conservativeMeshTransforms s) := by
    unfold conservativeMeshOptimization
    rw [if_pos hlen]
  refine ⟨?_, ?_, ?_, ?_, happ⟩ <;>
    · unfold conservativeMeshTransforms
      by_cases h : 0 < s.meshDecimation ∧ s.meshDecimation < 80 <;> simp [h]

/-! ## C3 — external-aggressive texture strategy (code bug) -/

/-- C3: because line 403's `document.createElement('canvas')` resolves
`document` to the glTF-Transform `Document` parameter (which shadows the DOM
global and has no `createElement` method), the very first statement of every
per-texture `try` block throws, the per-texture `catch` absorbs it, and the
external-aggressive strategy leaves every texture — and hence the whole
document — completely unchanged, for every oracle, document and settings.
No texture is ever resized, re-encoded or given a new MIME type. -/
theorem optimizeExternalTextures_is_no_op (o : PipelineOracle) (d : GltfDocument)
    (s : OptimizationSettings) :
    optimizeExternalTextures o d s = d := by
  have h1 : optimizeExternalTexture o d s = id := by
    funext t
    obtain ⟨i, img, mime⟩ := t
    cases img <;> rfl
  simp [optimizeExternalTextures, h1]

/-! ## C6 — embedded-safe texture strategy -/

/-- C6: the embedded-safe strategy runs only when `textureQuality` is not
`high` (at `high` the texture stage is the identity), and when it runs, the
textures remaining afterwards are exactly the members of the original texture
list (hence byte-for-byte unchanged) referenced by at least one of the five
texture slots of some material; every unreferenced texture is removed. -/
theorem textureStage_prunes_unused (s : OptimizationSettings) (d : GltfDocument) :
    (s.textureQuality = TexQuality.high → textureStage s d = d) ∧
    (s.textureQuality ≠ TexQuality.high → ∀ t : Texture,
      t ∈ (textureStage s d).textures ↔
        t ∈ d.textures ∧ ∃ m ∈ d.materials,
          m.baseColorTexture = some t.id ∨ m.normalTexture = some t.id ∨
          m.metallicRoughnessTexture = some t.id ∨ m.occlusionTexture = some t.id ∨
          m.emissiveTexture = some t.id) := by
  constructor
  · intro h
    simp [textureStage, h]
  · intro h t
    rw [textureStage, if_pos h]
    simp only [safeTextureOptimization, List.mem_filter]
    refine and_congr_right fun _ => ?_
    simp only [List.contains_iff_exists_mem_beq, beq_iff_eq]
    constructor
    · rintro ⟨i, hi, hid⟩
      subst hid
      rw [usedTextureIds, List.mem_flatMap] at hi
      obtain ⟨m, hm, hmi⟩ := hi
      rw [materialUsedTextureIds, List.mem_filterMap] at hmi
      obtain ⟨a, ha, haeq⟩ := hmi
      rw [id_eq] at haeq
      subst haeq
      refine ⟨m, hm, ?_⟩
      simpa [eq_comm] using ha
    · rintro ⟨m, hm, hslot⟩
      refine ⟨t.id, ?_, rfl⟩
      rw [usedTextureIds, List.mem_flatMap]
      refine ⟨m, hm, ?_⟩
      rw [materialUsedTextureIds, List.mem_filterMap]
      refine ⟨some t.id, ?_, rfl⟩
      rcases hslot with h1 | h1 | h1 | h1 | h1 <;> simp [h1]

/-! ## C2 and C10 — model inspector -/

/-- Folding the per-primitive accumulation over a primitive list adds the
component-wise sums of the contributions. -/
theorem primFoldAccum_eq (ps : List Primitive) (acc : Nat × Rat) :
    ps.foldl
      (fun a p => (a.1 + (primStatsContribution p).1, a.2 + (primStatsContribution p).2))
      acc =
    (acc.1 + (ps.map (fun p => (primStatsContribution p).1)).sum,
     acc.2 + (ps.map (fun p => (primStatsContribution p).2)).sum) := by
  induction ps generalizing acc with
  | nil => simp
  | cons p ps ih =>
    simp only [List.foldl_cons, List.map_cons, List.sum_cons, ih, Prod.mk.injEq]
    constructor
    · omega
    · ring

/-- Folding the per-mesh accumulation over a mesh list adds the
component-wise sums of the contributions of all their primitives. -/
theorem meshFoldAccum_eq (ms : List Mesh) (acc : Nat × Rat) :
    ms.foldl meshStatsAccum acc =
      (acc.1 + ((ms.flatMap (·.primitives)).map (fun p => (primStatsContribution p).1)).sum,
       acc.2 + ((ms.flatMap (·.primitives)).map (fun p => (primStatsContribution p).2)).sum) := by
  induction ms generalizing acc with
  | nil => simp
  | cons m ms ih =>
    simp only [List.foldl_cons, meshStatsAccum, primFoldAccum_eq, ih, List.flatMap_cons,
      List.map_append, List.sum_append, Prod.mk.injEq]
    constructor
    · omega
    · ring

/-- C2 (amended): the inspector's triangle total is `Math.floor` applied
once to the sum over all primitives of the exact fractional contributions
`indexCount/3` (indexed) or `vertexCount/3` (unindexed, only for primitives
with a POSITION attribute) — a single truncation of the summed thirds, not a
per-primitive truncation. -/
theorem getModelStats_triangles_floor_of_sum (d : GltfDocument) :
    (getModelStats d).triangles =
      Nat.floor (((d.meshes.flatMap (·.primitives)).map
        (fun p => (primStatsContribution p).2)).sum) := by
  show mathFloorNat (d.meshes.foldl meshStatsAccum (0, 0)).2 = _
  rw [mathFloorNat_eq_natFloor, meshFoldAccum_eq]
  norm_num

/-- Counterexample to C2 as stated: on a document whose two primitives have
index counts 4 and 5, the code's single floor of the summed thirds gives
`floor(4/3 + 5/3) = 3` triangles, while the claimed per-primitive truncation
gives `floor(4/3) + floor(5/3) = 2`. -/
theorem getModelStats_triangles_not_per_primitive :
    (getModelStats docC2).triangles = 3 ∧
    perPrimitiveTruncatedTriangleTotal docC2 = 2 ∧
    (getModelStats docC2).triangles ≠ perPrimitiveTruncatedTriangleTotal docC2 := by
  have h1 : (getModelStats docC2).triangles = 3 := by
    rw [show (getModelStats docC2).triangles
        = mathFloorNat ((docC2.meshes.foldl meshStatsAccum (0, 0)).2) from rfl]
    rw [mathFloorNat_eq_natFloor]
    norm_num [docC2, meshStatsAccum, primStatsContribution]
  have h2 : perPrimitiveTruncatedTriangleTotal docC2 = 2 := by
    norm_num [perPrimitiveTruncatedTriangleTotal, docC2]
  exact ⟨h1, h2, by omega⟩

/-- C10: a primitive without a POSITION attribute contributes zero vertices
and zero triangles to the inspector's totals even when it has an index
accessor: appending a mesh holding only such a primitive leaves both totals
unchanged. -/
theorem getModelStats_skips_positionless_primitive (d : GltfDocument) (p : Primitive)
    (hp : p.position = none) :
    (getModelStats { d with meshes := d.meshes ++ [⟨[p]⟩] }).vertices
        = (getModelStats d).vertices ∧
    (getModelStats { d with meshes := d.meshes ++ [⟨[p]⟩] }).triangles
        = (getModelStats d).triangles := by
  have hc : primStatsContribution p = (0, 0) := by
    simp [primStatsContribution, hp]
  have key : (d.meshes ++ [Mesh.mk [p]]).foldl meshStatsAccum ((0 : Nat), (0 : Rat))
      = d.meshes.foldl meshStatsAccum ((0 : Nat), (0 : Rat)) := by
    rw [meshFoldAccum_eq, meshFoldAccum_eq]
    simp [hc]
  refine ⟨?_, ?_⟩ <;>
  · simp only [getModelStats]
    rw [key]

/-- Witness for C10: a positionless primitive with a 9-element index accessor
adds nothing to either total. -/
theorem getModelStats_skips_positionless_primitive_witness :
    (getModelStats { emptyDoc with meshes := emptyDoc.meshes ++ [⟨[⟨none, some ⟨9⟩⟩]⟩] }).vertices
        = (getModelStats emptyDoc).vertices ∧
    (getModelStats { emptyDoc with meshes := emptyDoc.meshes ++ [⟨[⟨none, some ⟨9⟩⟩]⟩] }).triangles
        = (getModelStats emptyDoc).triangles :=
  getModelStats_skips_positionless_primitive emptyDoc ⟨none, some ⟨9⟩⟩ rfl

/-! ## C1 — single-file fallback guarantee -/

/-- The fallback's `reductionFactor` lies in `(0, 1]`. -/
theorem fallbackReductionFactor_le_one (s : OptimizationSettings) :
    ((if s.meshDecimation > 50 then (9 : Rat) / 10 else 1)
      * (if s.textureQuality = TexQuality.low then (95 : Rat) / 100 else 1)) ≤ 1 ∧
    (0 : Rat) ≤ ((if s.meshDecimation > 50 then (9 : Rat) / 10 else 1)
      * (if s.textureQuality = TexQuality.low then (95 : Rat) / 100 else 1)) := by
  constructor <;> split_ifs <;> norm_num

/-- C1: whenever any step of the single-file `try` block throws (validation,
decode, a pass, cleanup, encode, or the output validation), `optimizeGLB`
still returns a well-formed result — the Safe Fallback's — whose optimized
bytes are the original input bytes verbatim and whose reported
`optimizedSize` is at most `originalSize` (the input byte length).  The
model's total return type records that no exception reaches the caller. -/
theorem optimizeGLB_fallback_guarantee (o : PipelineOracle) (fileBytes : List Nat)
    (s : OptimizationSettings)
    (h : (optimizeGLBTry o fileBytes s).2.isOk = false) :
    (optimizeGLB o fileBytes s).2 = (safeFallbackOptimization fileBytes s).2 ∧
    (optimizeGLB o fileBytes s).2.optimizedBytes = fileBytes ∧
    (optimizeGLB o fileBytes s).2.originalSize = fileBytes.length ∧
    (optimizeGLB o fileBytes s).2.optimizedSize ≤ (optimizeGLB o fileBytes s).2.originalSize := by
  have hres : (optimizeGLB o fileBytes s).2 = (safeFallbackOptimization fileBytes s).2 := by
    unfold optimizeGLB
    rcases hq : optimizeGLBTry o fileBytes s with ⟨tr, res⟩
    cases res with
    | ok r => rw [hq] at h; simp [Except.isOk, Except.toBool] at h
    | error e => simp
  have hsize : (safeFallbackOptimization fileBytes s).2.optimizedSize
      ≤ (safeFallbackOptimization fileBytes s).2.originalSize := by
    simp only [safeFallbackOptimization]
    rw [mathFloorNat_eq_natFloor]
    obtain ⟨hle, hpos⟩ := fallbackReductionFactor_le_one s
    calc ⌊(fileBytes.length : Rat)
            * ((if s.meshDecimation > 50 then (9 : Rat) / 10 else 1)
              * (if s.textureQuality = TexQuality.low then (95 : Rat) / 100 else 1))⌋₊
        ≤ ⌊(fileBytes.length : Rat)⌋₊ :=
          Nat.floor_le_floor (mul_le_of_le_one_right (by positivity) hle)
      _ = fileBytes.length := Nat.floor_natCast _
  refine ⟨hres, ?_, ?_, ?_⟩ <;> rw [hres]
  · rfl
  · rfl
  · exact hsize

/-- Witness for C1: a run whose mesh-optimization transform throws falls back
to the original bytes. -/
theorem optimizeGLB_fallback_guarantee_witness :
    (optimizeGLB failMeshOracle glbHeader exSettings40).2
        = (safeFallbackOptimization glbHeader exSettings40).2 ∧
    (optimizeGLB failMeshOracle glbHeader exSettings40).2.optimizedBytes = glbHeader ∧
    (optimizeGLB failMeshOracle glbHeader exSettings40).2.originalSize = glbHeader.length ∧
    (optimizeGLB failMeshOracle glbHeader exSettings40).2.optimizedSize
        ≤ (optimizeGLB failMeshOracle glbHeader exSettings40).2.originalSize :=
  optimizeGLB_fallback_guarantee failMeshOracle glbHeader exSettings40 rfl

/-! ## C8 — multi-file flow propagates exceptions -/

/-- C8: whenever any step of the multi-file `try` block throws, the
`catch` of `optimizeGLTFWithTextures` rethrows the very same error — the
exception propagates to the caller and no Safe Fallback result is ever
substituted. -/
theorem optimizeGLTFWithTextures_propagates (o : PipelineOracle) (gltfText : String)
    (textureFiles : List (String × List Nat)) (s : OptimizationSettings)
    (tr : List ProgressEvent) (e : String)
    (h : optimizeGLTFWithTexturesTry o gltfText textureFiles s = (tr, .error e)) :
    optimizeGLTFWithTextures o gltfText textureFiles s = (tr, .error e) := by
  unfold optimizeGLTFWithTextures
  rw [h]

/-- Witness for C8: the mesh transform throwing inside the multi-file flow
reaches the caller as the same error. -/
theorem optimizeGLTFWithTextures_propagates_witness :
    optimizeGLTFWithTextures failMeshOracle "scene" [] exSettings40 =
      ([(10, "analyzing"), (30, "optimizing")], .error "mesh boom") :=
  optimizeGLTFWithTextures_propagates failMeshOracle "scene" [] exSettings40
    [(10, "analyzing"), (30, "optimizing")] "mesh boom" rfl

/-! ## C4 — progress percentages -/

/-- The progress events emitted by the `try` block alone are always
monotonically non-decreasing: every failure prefix and both success traces
(with and without the Draco checkpoint) respect the checkpoint order
10/20/30/50/60/75/(80)/90/95/100. -/
theorem optimizeGLBTry_progress_monotone (o : PipelineOracle) (fileBytes : List Nat)
    (s : OptimizationSettings) :
    progressMonotone (optimizeGLBTry o fileBytes s).1 = true := by
  unfold optimizeGLBTry
  repeat' split
  all_goals try rfl
  · rename_i hval x1 doc heq1 x2 doc2 heq2 hde
    dsimp only
    cases htd : o.transformDedupPrune (safeDracoCompression o (textureStage s doc2) s) with
    | error e => rfl
    | ok doc5 =>
      dsimp only
      cases hwb : o.writeBinary doc5 with
      | error e => rfl
      | ok outBytes =>
        dsimp only
        cases hvo : isValidGLB outBytes with
        | false => rfl
        | true => rfl
  · rename_i hval x1 doc heq1 x2 doc2 heq2 hde
    dsimp only
    cases htd : o.transformDedupPrune (textureStage s doc2) with
    | error e => rfl
    | ok doc5 =>
      dsimp only
      cases hwb : o.writeBinary doc5 with
      | error e => rfl
      | ok outBytes =>
        dsimp only
        cases hvo : isValidGLB outBytes with
        | false => rfl
        | true => rfl

/-- Counterexample to C4 as stated: in a run whose mesh-optimization
transform throws after the 30% checkpoint, the Safe Fallback restarts its
progress at 25 — the emitted sequence 10, 20, 30, 25, 50, 75, 100 is not
monotonically non-decreasing. -/
theorem optimizeGLB_progress_not_monotone_on_fallback :
    (optimizeGLB failMeshOracle glbHeader exSettings40).1 =
      [(10, "analyzing"), (20, "analyzing"), (30, "optimizing"),
       (25, "analyzing"), (50, "optimizing"), (75, "compressing"), (100, "finalizing")] ∧
    progressMonotone (optimizeGLB failMeshOracle glbHeader exSettings40).1 = false := by
  exact ⟨rfl, rfl⟩

/-- C4 (amended): every run that completes without diverting to the Safe
Fallback emits monotonically non-decreasing percentages; a run that diverts
to the fallback after the 30% checkpoint re-emits lower percentages (the
fallback restarts at 25), so the original claim holds only for non-fallback
runs (and for fallback runs whose failure precedes the 30% checkpoint). -/
theorem optimizeGLB_progress_monotone_of_ok (o : PipelineOracle)
    (fileBytes : List Nat) (s : OptimizationSettings)
    (h : (optimizeGLBTry o fileBytes s).2.isOk = true) :
    progressMonotone (optimizeGLB o fileBytes s).1 = true := by
  have htr : (optimizeGLB o fileBytes s).1 = (optimizeGLBTry o fileBytes s).1 := by
    unfold optimizeGLB
    rcases hq : optimizeGLBTry o fileBytes s with ⟨tr, res⟩
    cases res with
    | ok r => simp
    | error e => rw [hq] at h; simp [Except.isOk, Except.toBool] at h
  rw [htr]
  exact optimizeGLBTry_progress_monotone o fileBytes s

/-- Witness for amended C4: a fully successful run has a monotone trace. -/
theorem optimizeGLB_progress_monotone_of_ok_witness :
    progressMonotone (optimizeGLB okOracle glbHeader exSettings40).1 = true :=
  optimizeGLB_progress_monotone_of_ok okOracle glbHeader exSettings40 rfl

end GLBOptimizer
